import Mathlib

/-!
Shallow embedding of the Pinball physics engine (src/js/physics.js) and of
the table elements (src/js/elements.js).  JavaScript numbers are modelled
as real numbers; Math.sqrt is Real.sqrt, Math.PI is Real.pi, Math.sign is
Real.sign, Math.cos and Math.sin are Real.cos and Real.sin.  Mutation is
modelled by explicit state passing: a method that mutates the ball (or the
element) returns the new ball (or element) as part of its result.  The
Plunger uses rational arithmetic only, so it is embedded over the rational
numbers to keep its operations decidable.
-/

namespace Pinball

/-- PHYSICS.gravity from physics.js. -/
def gravity : ℝ := 0.3

/-- PHYSICS.friction from physics.js. -/
def friction : ℝ := 0.99

/-- PHYSICS.bounciness from physics.js. -/
def bounciness : ℝ := 0.7

/-- PHYSICS.maxSpeed from physics.js. -/
def maxSpeed : ℝ := 20

/-- PHYSICS.minSpeed from physics.js. -/
def minSpeed : ℝ := 0.1

/-- Function magnitude(x, y) from physics.js. -/
noncomputable def magnitude (x y : ℝ) : ℝ := Real.sqrt (x * x + y * y)

/-- Function normalize(x, y) from physics.js; returns the zero vector for a
zero-length input. -/
noncomputable def normalize (x y : ℝ) : ℝ × ℝ :=
  let length := Real.sqrt (x * x + y * y)
  if length = 0 then (0, 0) else (x / length, y / length)

/-- Function dot(x1, y1, x2, y2) from physics.js. -/
def dotv (x1 y1 x2 y2 : ℝ) : ℝ := x1 * x2 + y1 * y2

/-- Function reflect(vx, vy, nx, ny) from physics.js. -/
def reflect (vx vy nx ny : ℝ) : ℝ × ℝ :=
  let dotProduct := dotv vx vy nx ny
  (vx - 2 * dotProduct * nx, vy - 2 * dotProduct * ny)

/-- Function distance(x1, y1, x2, y2) from physics.js. -/
noncomputable def distance (x1 y1 x2 y2 : ℝ) : ℝ :=
  Real.sqrt ((x2 - x1) * (x2 - x1) + (y2 - y1) * (y2 - y1))

/-- Function clamp(value, min, max) from physics.js. -/
def clamp (value lo hi : ℝ) : ℝ := max lo (min hi value)

/-- State of the Ball class from physics.js.  The mass field of the source
is the derived value radius * radius (see Ball.mass); the lastCollision
field is only ever read for debugging and is omitted.  The isHeld flag is
created dynamically by the Kicker in the source and starts out absent
(falsy), modelled as false. -/
structure Ball where
  x : ℝ
  y : ℝ
  vx : ℝ
  vy : ℝ
  radius : ℝ
  active : Bool
  isHeld : Bool

/-- Constructor of the Ball class (velocity starts at zero, active). -/
def mkBall (x y radius : ℝ) : Ball :=
  { x := x, y := y, vx := 0, vy := 0, radius := radius,
    active := true, isHeld := false }

/-- Derived mass of the ball: radius * radius, as in the constructor. -/
def Ball.mass (b : Ball) : ℝ := b.radius * b.radius

/-- Gravity stage of Ball.update: this.vy += PHYSICS.gravity. -/
def Ball.applyGravity (b : Ball) : Ball := { b with vy := b.vy + gravity }

/-- Friction stage of Ball.update: both velocity components are multiplied
by PHYSICS.friction. -/
def Ball.applyFriction (b : Ball) : Ball :=
  { b with vx := b.vx * friction, vy := b.vy * friction }

/-- Speed-limit stage of Ball.update: when the speed exceeds
PHYSICS.maxSpeed the velocity is rescaled to the cap. -/
noncomputable def Ball.clampSpeed (b : Ball) : Ball :=
  let speed := magnitude b.vx b.vy
  if maxSpeed < speed then
    { b with vx := b.vx * (maxSpeed / speed), vy := b.vy * (maxSpeed / speed) }
  else b

/-- Minimum-speed stage of Ball.update: a velocity component whose absolute
value is below PHYSICS.minSpeed is zeroed. -/
noncomputable def Ball.snapSmall (b : Ball) : Ball :=
  { b with vx := if |b.vx| < minSpeed then 0 else b.vx,
           vy := if |b.vy| < minSpeed then 0 else b.vy }

/-- Position stage of Ball.update: this.x += this.vx; this.y += this.vy. -/
def Ball.integrate (b : Ball) : Ball :=
  { b with x := b.x + b.vx, y := b.y + b.vy }

/-- Method Ball.update() from physics.js, called with no bounds argument
(bounds = null), so the final checkBounds call is skipped.  The sequence of
mutations of the source is embedded as sequential record updates. -/
noncomputable def Ball.update (b : Ball) : Ball :=
  if b.active then
    let b1 : Ball := { b with vy := b.vy + gravity }
    let b2 : Ball := { b1 with vx := b1.vx * friction, vy := b1.vy * friction }
    let speed := magnitude b2.vx b2.vy
    let b3 : Ball :=
      if maxSpeed < speed then
        { b2 with vx := b2.vx * (maxSpeed / speed),
                  vy := b2.vy * (maxSpeed / speed) }
      else b2
    let b4 : Ball := { b3 with vx := if |b3.vx| < minSpeed then 0 else b3.vx,
                               vy := if |b3.vy| < minSpeed then 0 else b3.vy }
    { b4 with x := b4.x + b4.vx, y := b4.y + b4.vy }
  else b

theorem magnitude_nonneg (x y : ℝ) : 0 ≤ magnitude x y := Real.sqrt_nonneg _

theorem magnitude_scale (x y k : ℝ) (hk : 0 ≤ k) :
    magnitude (x * k) (y * k) = magnitude x y * k := by
  unfold magnitude
  have h1 : x * k * (x * k) + y * k * (y * k) = (x * x + y * y) * (k * k) := by
    ring
  rw [h1, Real.sqrt_mul (add_nonneg (mul_self_nonneg x) (mul_self_nonneg y)),
    Real.sqrt_mul_self hk]

theorem magnitude_mono {x1 y1 x2 y2 : ℝ} (h1 : x1 * x1 ≤ x2 * x2)
    (h2 : y1 * y1 ≤ y2 * y2) : magnitude x1 y1 ≤ magnitude x2 y2 :=
  Real.sqrt_le_sqrt (add_le_add h1 h2)

theorem clampSpeed_speed_le (b : Ball) :
    magnitude b.clampSpeed.vx b.clampSpeed.vy ≤ maxSpeed := by
  have hmax : (0:ℝ) < maxSpeed := by norm_num [maxSpeed]
  by_cases h : maxSpeed < magnitude b.vx b.vy
  · have hs : (0:ℝ) < magnitude b.vx b.vy := lt_trans hmax h
    have hk : 0 ≤ maxSpeed / magnitude b.vx b.vy := le_of_lt (div_pos hmax hs)
    have hgoal : magnitude (b.vx * (maxSpeed / magnitude b.vx b.vy))
        (b.vy * (maxSpeed / magnitude b.vx b.vy)) ≤ maxSpeed := by
      rw [magnitude_scale _ _ _ hk]
      have heq : magnitude b.vx b.vy * (maxSpeed / magnitude b.vx b.vy)
          = maxSpeed := by
        field_simp
      rw [heq]
    unfold Ball.clampSpeed
    simpa only [if_pos h] using hgoal
  · unfold Ball.clampSpeed
    simpa only [if_neg h] using le_of_not_lt h

theorem snapSmall_speed_le (b : Ball) :
    magnitude b.snapSmall.vx b.snapSmall.vy ≤ magnitude b.vx b.vy := by
  unfold Ball.snapSmall
  apply magnitude_mono
  · by_cases h : |b.vx| < minSpeed
    · simp [h, mul_self_nonneg]
    · simp [h, le_refl]
  · by_cases h : |b.vy| < minSpeed
    · simp [h, mul_self_nonneg]
    · simp [h, le_refl]

theorem snapSmall_components (b : Ball) :
    (b.snapSmall.vx = 0 ∨ minSpeed ≤ |b.snapSmall.vx|) ∧
    (b.snapSmall.vy = 0 ∨ minSpeed ≤ |b.snapSmall.vy|) := by
  unfold Ball.snapSmall
  constructor
  · by_cases h : |b.vx| < minSpeed
    · left; simp [h]
    · right; simpa [h] using le_of_not_lt h
  · by_cases h : |b.vy| < minSpeed
    · left; simp [h]
    · right; simpa [h] using le_of_not_lt h

/-- C2: for every active ball, Ball.update() with no bounds argument is the
pipeline gravity, friction, speed clamp, minimum-speed snap, position
advance, in that order; afterwards the speed is at most PHYSICS.maxSpeed
and every velocity component is exactly zero or at least PHYSICS.minSpeed
in absolute value. -/
theorem ball_update_pipeline_and_invariants (b : Ball) (h : b.active = true) :
    b.update = b.applyGravity.applyFriction.clampSpeed.snapSmall.integrate ∧
    magnitude b.update.vx b.update.vy ≤ maxSpeed ∧
    (b.update.vx = 0 ∨ minSpeed ≤ |b.update.vx|) ∧
    (b.update.vy = 0 ∨ minSpeed ≤ |b.update.vy|) := by
  have hpipe : b.update = b.applyGravity.applyFriction.clampSpeed.snapSmall.integrate := by
    unfold Ball.update Ball.applyGravity Ball.applyFriction Ball.clampSpeed
      Ball.snapSmall Ball.integrate
    rw [if_pos h]
  refine ⟨hpipe, ?_, ?_, ?_⟩
  · rw [hpipe]
    set c := b.applyGravity.applyFriction.clampSpeed with hc
    have h1 : c.snapSmall.integrate.vx = c.snapSmall.vx := rfl
    have h2 : c.snapSmall.integrate.vy = c.snapSmall.vy := rfl
    rw [h1, h2]
    exact le_trans (snapSmall_speed_le c) (clampSpeed_speed_le _)
  · rw [hpipe]
    exact (snapSmall_components _).1
  · rw [hpipe]
    exact (snapSmall_components _).2

/-- Witness for C2 at a concrete ball: the freshly spawned ball at
(200, 150) with radius 8 is active, and the theorem applies to it. -/
theorem ball_update_pipeline_and_invariants_witness :
    (mkBall 200 150 8).active = true ∧
    ((mkBall 200 150 8).update =
      (mkBall 200 150 8).applyGravity.applyFriction.clampSpeed.snapSmall.integrate ∧
    magnitude (mkBall 200 150 8).update.vx (mkBall 200 150 8).update.vy ≤ maxSpeed ∧
    ((mkBall 200 150 8).update.vx = 0 ∨ minSpeed ≤ |(mkBall 200 150 8).update.vx|) ∧
    ((mkBall 200 150 8).update.vy = 0 ∨ minSpeed ≤ |(mkBall 200 150 8).update.vy|)) :=
  ⟨rfl, ball_update_pipeline_and_invariants (mkBall 200 150 8) rfl⟩

/-- Collision record returned by the detectors of physics.js: contact
point, outward unit normal and penetration depth. -/
structure Contact where
  px : ℝ
  py : ℝ
  nx : ℝ
  ny : ℝ
  depth : ℝ

/-- Circular obstacle argument of circleCircleCollision. -/
structure CircleObs where
  x : ℝ
  y : ℝ
  radius : ℝ

/-- Function circleCircleCollision(ball, circle) from physics.js. -/
noncomputable def circleCircleCollision (b : Ball) (c : CircleObs) :
    Option Contact :=
  let dx := b.x - c.x
  let dy := b.y - c.y
  let dist := magnitude dx dy
  let minDist := b.radius + c.radius
  if dist < minDist ∧ dist > 0 then
    let n := normalize dx dy
    some { px := c.x + n.1 * c.radius, py := c.y + n.2 * c.radius,
           nx := n.1, ny := n.2, depth := minDist - dist }
  else none

/-- Function circleLineCollision(ball, x1, y1, x2, y2) from physics.js. -/
noncomputable def circleLineCollision (b : Ball) (x1 y1 x2 y2 : ℝ) :
    Option Contact :=
  let lineX := x2 - x1
  let lineY := y2 - y1
  let lineLength := magnitude lineX lineY
  if lineLength = 0 then none
  else
    let lineDirX := lineX / lineLength
    let lineDirY := lineY / lineLength
    let projection := clamp (dotv (b.x - x1) (b.y - y1) lineDirX lineDirY)
      0 lineLength
    let closestX := x1 + lineDirX * projection
    let closestY := y1 + lineDirY * projection
    let dx := b.x - closestX
    let dy := b.y - closestY
    let dist := magnitude dx dy
    if dist < b.radius ∧ dist > 0 then
      let n := normalize dx dy
      some { px := closestX, py := closestY, nx := n.1, ny := n.2,
             depth := b.radius - dist }
    else none

theorem normalize_of_pos {x y : ℝ} (h : 0 < Real.sqrt (x * x + y * y)) :
    normalize x y = (x / Real.sqrt (x * x + y * y),
      y / Real.sqrt (x * x + y * y)) := by
  unfold normalize
  rw [if_neg (ne_of_gt h)]

/-- C1 amended: circleCircleCollision returns no contact when the distance
between centers is at least the sum of the radii; when the distance is
strictly positive and below the sum it returns the contact whose depth is
sum minus distance and whose normal is the unit vector from the circle
center toward the ball center.  (At distance exactly zero it returns no
contact, which is what forces the amendment.) -/
theorem circleCircleCollision_correct (b : Ball) (c : CircleObs) :
    (b.radius + c.radius ≤ magnitude (b.x - c.x) (b.y - c.y) →
      circleCircleCollision b c = none) ∧
    (0 < magnitude (b.x - c.x) (b.y - c.y) →
      magnitude (b.x - c.x) (b.y - c.y) < b.radius + c.radius →
      circleCircleCollision b c = some
        { px := c.x + (b.x - c.x) / magnitude (b.x - c.x) (b.y - c.y) * c.radius,
          py := c.y + (b.y - c.y) / magnitude (b.x - c.x) (b.y - c.y) * c.radius,
          nx := (b.x - c.x) / magnitude (b.x - c.x) (b.y - c.y),
          ny := (b.y - c.y) / magnitude (b.x - c.x) (b.y - c.y),
          depth := b.radius + c.radius - magnitude (b.x - c.x) (b.y - c.y) }) := by
  constructor
  · intro hge
    unfold circleCircleCollision
    rw [if_neg]
    intro hcontra
    exact absurd hge (not_le_of_lt hcontra.1)
  · intro hpos hlt
    unfold circleCircleCollision
    rw [if_pos ⟨hlt, hpos⟩]
    have hn : normalize (b.x - c.x) (b.y - c.y)
        = ((b.x - c.x) / magnitude (b.x - c.x) (b.y - c.y),
           (b.y - c.y) / magnitude (b.x - c.x) (b.y - c.y)) :=
      normalize_of_pos hpos
    rw [hn]

/-- Counterexample to C1 as stated: a ball whose center coincides with the
circle center has distance 0, which is strictly below the sum of the
radii, yet the detector returns no contact record. -/
theorem circleCircleCollision_center_overlap_no_contact :
    magnitude ((mkBall 0 0 1).x - (CircleObs.mk 0 0 1).x)
        ((mkBall 0 0 1).y - (CircleObs.mk 0 0 1).y)
      < (mkBall 0 0 1).radius + (CircleObs.mk 0 0 1).radius ∧
    circleCircleCollision (mkBall 0 0 1) (CircleObs.mk 0 0 1) = none := by
  have hm : magnitude ((0:ℝ) - 0) ((0:ℝ) - 0) = 0 := by
    unfold magnitude
    norm_num
  constructor
  · show magnitude ((0:ℝ) - 0) ((0:ℝ) - 0) < (1:ℝ) + 1
    rw [hm]; norm_num
  · unfold circleCircleCollision
    rw [if_neg]
    intro hcontra
    have h0 : ¬ ((0:ℝ) < magnitude ((0:ℝ) - 0) ((0:ℝ) - 0)) := by
      rw [hm]; norm_num
    exact h0 hcontra.2

theorem sqrt_twentyfive : Real.sqrt 25 = 5 := by
  rw [show (25:ℝ) = 5 ^ 2 by norm_num, Real.sqrt_sq (by norm_num : (0:ℝ) ≤ 5)]

theorem magnitude_three_four : magnitude (3:ℝ) 4 = 5 := by
  unfold magnitude
  rw [show (3:ℝ) * 3 + 4 * 4 = 25 by norm_num, sqrt_twentyfive]

/-- Witness for C1 at a concrete overlapping pair: ball at (3,4) with
radius 2 against a circle at the origin with radius 4, center distance 5,
both hypotheses hold and the contact record is produced. -/
theorem circleCircleCollision_correct_witness :
    0 < magnitude ((mkBall 3 4 2).x - (CircleObs.mk 0 0 4).x)
        ((mkBall 3 4 2).y - (CircleObs.mk 0 0 4).y) ∧
    magnitude ((mkBall 3 4 2).x - (CircleObs.mk 0 0 4).x)
        ((mkBall 3 4 2).y - (CircleObs.mk 0 0 4).y)
      < (mkBall 3 4 2).radius + (CircleObs.mk 0 0 4).radius ∧
    circleCircleCollision (mkBall 3 4 2) (CircleObs.mk 0 0 4) = some
      { px := (CircleObs.mk 0 0 4).x +
          ((mkBall 3 4 2).x - (CircleObs.mk 0 0 4).x) /
            magnitude ((mkBall 3 4 2).x - (CircleObs.mk 0 0 4).x)
              ((mkBall 3 4 2).y - (CircleObs.mk 0 0 4).y) * (CircleObs.mk 0 0 4).radius,
        py := (CircleObs.mk 0 0 4).y +
          ((mkBall 3 4 2).y - (CircleObs.mk 0 0 4).y) /
            magnitude ((mkBall 3 4 2).x - (CircleObs.mk 0 0 4).x)
              ((mkBall 3 4 2).y - (CircleObs.mk 0 0 4).y) * (CircleObs.mk 0 0 4).radius,
        nx := ((mkBall 3 4 2).x - (CircleObs.mk 0 0 4).x) /
            magnitude ((mkBall 3 4 2).x - (CircleObs.mk 0 0 4).x)
              ((mkBall 3 4 2).y - (CircleObs.mk 0 0 4).y),
        ny := ((mkBall 3 4 2).y - (CircleObs.mk 0 0 4).y) /
            magnitude ((mkBall 3 4 2).x - (CircleObs.mk 0 0 4).x)
              ((mkBall 3 4 2).y - (CircleObs.mk 0 0 4).y),
        depth := (mkBall 3 4 2).radius + (CircleObs.mk 0 0 4).radius -
          magnitude ((mkBall 3 4 2).x - (CircleObs.mk 0 0 4).x)
            ((mkBall 3 4 2).y - (CircleObs.mk 0 0 4).y) } := by
  have hd : magnitude ((mkBall 3 4 2).x - (CircleObs.mk 0 0 4).x)
      ((mkBall 3 4 2).y - (CircleObs.mk 0 0 4).y) = 5 := by
    show magnitude ((3:ℝ) - 0) ((4:ℝ) - 0) = 5
    rw [show (3:ℝ) - 0 = 3 by norm_num, show (4:ℝ) - 0 = 4 by norm_num]
    exact magnitude_three_four
  have h1 : 0 < magnitude ((mkBall 3 4 2).x - (CircleObs.mk 0 0 4).x)
      ((mkBall 3 4 2).y - (CircleObs.mk 0 0 4).y) := by rw [hd]; norm_num
  have h2 : magnitude ((mkBall 3 4 2).x - (CircleObs.mk 0 0 4).x)
      ((mkBall 3 4 2).y - (CircleObs.mk 0 0 4).y)
      < (mkBall 3 4 2).radius + (CircleObs.mk 0 0 4).radius := by
    rw [hd]; show (5:ℝ) < 2 + 4; norm_num
  exact ⟨h1, h2, (circleCircleCollision_correct (mkBall 3 4 2)
    (CircleObs.mk 0 0 4)).2 h1 h2⟩

/-- State of the Bumper class from elements.js.  The pulsePhase field is
randomised at construction in the source and only drives the drawing
animation; the model starts it at zero. -/
structure Bumper where
  x : ℝ
  y : ℝ
  radius : ℝ
  points : ℝ
  isLit : Bool
  hitTimer : ℕ
  hitDuration : ℕ
  bounceForce : ℝ
  pulsePhase : ℝ
  pulseSpeed : ℝ

/-- Constructor of the Bumper class. -/
def mkBumper (x y radius points : ℝ) : Bumper :=
  { x := x, y := y, radius := radius, points := points,
    isLit := false, hitTimer := 0, hitDuration := 10,
    bounceForce := 15, pulsePhase := 0, pulseSpeed := 0.1 }

/-- Method Bumper.hit(ball) from elements.js: sets the velocity to the
normalized bumper-to-ball direction times bounceForce, removes the
overlap, lights the bumper and returns its points; exact center overlap
returns 0 and mutates nothing. -/
noncomputable def Bumper.hit (bp : Bumper) (b : Ball) : Bumper × Ball × ℝ :=
  let dx := b.x - bp.x
  let dy := b.y - bp.y
  let dist := magnitude dx dy
  if dist = 0 then (bp, b, 0)
  else
    let nx := dx / dist
    let ny := dy / dist
    let b1 : Ball := { b with vx := nx * bp.bounceForce, vy := ny * bp.bounceForce }
    let overlap := bp.radius + b.radius - dist
    let b2 : Ball :=
      if 0 < overlap then { b1 with x := b1.x + nx * overlap, y := b1.y + ny * overlap }
      else b1
    ({ bp with isLit := true, hitTimer := bp.hitDuration }, b2, bp.points)

/-- Method Bumper.checkCollision(ball) from elements.js. -/
noncomputable def Bumper.checkCollision (bp : Bumper) (b : Ball) :
    Bumper × Ball × ℝ :=
  let dist := magnitude (b.x - bp.x) (b.y - bp.y)
  if dist < bp.radius + b.radius then bp.hit b else (bp, b, 0)

theorem mul_self_magnitude (x y : ℝ) :
    magnitude x y * magnitude x y = x * x + y * y :=
  Real.mul_self_sqrt (add_nonneg (mul_self_nonneg x) (mul_self_nonneg y))

theorem pushout_magnitude (dx dy S : ℝ) (hpos : 0 < magnitude dx dy)
    (hS : magnitude dx dy ≤ S) :
    magnitude (dx + dx / magnitude dx dy * (S - magnitude dx dy))
      (dy + dy / magnitude dx dy * (S - magnitude dx dy)) = S := by
  have hne : magnitude dx dy ≠ 0 := ne_of_gt hpos
  have hSnn : 0 ≤ S / magnitude dx dy :=
    div_nonneg (le_trans (le_of_lt hpos) hS) (le_of_lt hpos)
  have h1 : dx + dx / magnitude dx dy * (S - magnitude dx dy)
      = dx * (S / magnitude dx dy) := by field_simp; ring
  have h2 : dy + dy / magnitude dx dy * (S - magnitude dx dy)
      = dy * (S / magnitude dx dy) := by field_simp; ring
  rw [h1, h2, magnitude_scale _ _ _ hSnn]
  field_simp

theorem pushout_away (dx dy S F : ℝ) (hpos : 0 < magnitude dx dy)
    (hF : 0 < F) (hS : magnitude dx dy < S) :
    0 < dx / magnitude dx dy * F *
        (dx + dx / magnitude dx dy * (S - magnitude dx dy))
      + dy / magnitude dx dy * F *
        (dy + dy / magnitude dx dy * (S - magnitude dx dy)) := by
  have hne : magnitude dx dy ≠ 0 := ne_of_gt hpos
  have hm2 : dx * dx + dy * dy = magnitude dx dy * magnitude dx dy :=
    (mul_self_magnitude dx dy).symm
  have hexpr : dx / magnitude dx dy * F *
        (dx + dx / magnitude dx dy * (S - magnitude dx dy))
      + dy / magnitude dx dy * F *
        (dy + dy / magnitude dx dy * (S - magnitude dx dy))
      = F * S * ((dx * dx + dy * dy) / (magnitude dx dy * magnitude dx dy)) := by
    field_simp
    ring
  rw [hexpr, hm2, div_self (mul_ne_zero hne hne), mul_one]
  exact mul_pos hF (lt_trans hpos hS)

/-- C7: a ball overlapping a bumper at positive center distance has its
velocity set (not added to) to the unit bumper-to-ball direction scaled by
bounceForce, its position pushed out to center distance exactly
radius + radius (hence at least that), the bumper is lit with its cooldown
timer started, the bumper points are returned, and the resulting velocity
points away from the bumper center. -/
theorem bumper_checkCollision_correct (bp : Bumper) (b : Ball)
    (hforce : 0 < bp.bounceForce)
    (hpos : 0 < magnitude (b.x - bp.x) (b.y - bp.y))
    (hlt : magnitude (b.x - bp.x) (b.y - bp.y) < bp.radius + b.radius) :
    ((bp.checkCollision b).2.1).vx
        = (b.x - bp.x) / magnitude (b.x - bp.x) (b.y - bp.y) * bp.bounceForce ∧
    ((bp.checkCollision b).2.1).vy
        = (b.y - bp.y) / magnitude (b.x - bp.x) (b.y - bp.y) * bp.bounceForce ∧
    magnitude (((bp.checkCollision b).2.1).x - bp.x)
        (((bp.checkCollision b).2.1).y - bp.y) = bp.radius + b.radius ∧
    ((bp.checkCollision b).1).isLit = true ∧
    ((bp.checkCollision b).1).hitTimer = bp.hitDuration ∧
    (bp.checkCollision b).2.2 = bp.points ∧
    0 < ((bp.checkCollision b).2.1).vx * (((bp.checkCollision b).2.1).x - bp.x)
      + ((bp.checkCollision b).2.1).vy * (((bp.checkCollision b).2.1).y - bp.y) := by
  have hne : magnitude (b.x - bp.x) (b.y - bp.y) ≠ 0 := ne_of_gt hpos
  have hover : 0 < bp.radius + b.radius - magnitude (b.x - bp.x) (b.y - bp.y) := by
    linarith
  have hr : bp.checkCollision b =
      ({ bp with isLit := true, hitTimer := bp.hitDuration },
       { b with vx := (b.x - bp.x) / magnitude (b.x - bp.x) (b.y - bp.y) * bp.bounceForce,
                vy := (b.y - bp.y) / magnitude (b.x - bp.x) (b.y - bp.y) * bp.bounceForce,
                x := b.x + (b.x - bp.x) / magnitude (b.x - bp.x) (b.y - bp.y) *
                  (bp.radius + b.radius - magnitude (b.x - bp.x) (b.y - bp.y)),
                y := b.y + (b.y - bp.y) / magnitude (b.x - bp.x) (b.y - bp.y) *
                  (bp.radius + b.radius - magnitude (b.x - bp.x) (b.y - bp.y)) },
       bp.points) := by
    unfold Bumper.checkCollision Bumper.hit
    simp only [if_pos hlt, if_neg hne, if_pos hover]
  have hxd : b.x + (b.x - bp.x) / magnitude (b.x - bp.x) (b.y - bp.y) *
        (bp.radius + b.radius - magnitude (b.x - bp.x) (b.y - bp.y)) - bp.x
      = (b.x - bp.x) + (b.x - bp.x) / magnitude (b.x - bp.x) (b.y - bp.y) *
        (bp.radius + b.radius - magnitude (b.x - bp.x) (b.y - bp.y)) := by ring
  have hyd : b.y + (b.y - bp.y) / magnitude (b.x - bp.x) (b.y - bp.y) *
        (bp.radius + b.radius - magnitude (b.x - bp.x) (b.y - bp.y)) - bp.y
      = (b.y - bp.y) + (b.y - bp.y) / magnitude (b.x - bp.x) (b.y - bp.y) *
        (bp.radius + b.radius - magnitude (b.x - bp.x) (b.y - bp.y)) := by ring
  rw [hr]
  refine ⟨rfl, rfl, ?_, rfl, rfl, rfl, ?_⟩
  · show magnitude (b.x + (b.x - bp.x) / magnitude (b.x - bp.x) (b.y - bp.y) *
        (bp.radius + b.radius - magnitude (b.x - bp.x) (b.y - bp.y)) - bp.x)
        (b.y + (b.y - bp.y) / magnitude (b.x - bp.x) (b.y - bp.y) *
        (bp.radius + b.radius - magnitude (b.x - bp.x) (b.y - bp.y)) - bp.y)
      = bp.radius + b.radius
    rw [hxd, hyd]
    exact pushout_magnitude _ _ _ hpos (le_of_lt hlt)
  · show 0 < (b.x - bp.x) / magnitude (b.x - bp.x) (b.y - bp.y) * bp.bounceForce *
        (b.x + (b.x - bp.x) / magnitude (b.x - bp.x) (b.y - bp.y) *
          (bp.radius + b.radius - magnitude (b.x - bp.x) (b.y - bp.y)) - bp.x)
      + (b.y - bp.y) / magnitude (b.x - bp.x) (b.y - bp.y) * bp.bounceForce *
        (b.y + (b.y - bp.y) / magnitude (b.x - bp.x) (b.y - bp.y) *
          (bp.radius + b.radius - magnitude (b.x - bp.x) (b.y - bp.y)) - bp.y)
    rw [hxd, hyd]
    exact pushout_away _ _ _ _ hpos hforce hlt

/-- Witness for C7: the spec scenario bumper at (200, 200) with radius 30
against a ball of radius 8 whose center sits at distance 5 from the bumper
center (offset (3,4)); all three hypotheses hold concretely. -/
theorem bumper_checkCollision_correct_witness :
    0 < (mkBumper 200 200 30 100).bounceForce ∧
    0 < magnitude ((mkBall 203 204 8).x - (mkBumper 200 200 30 100).x)
        ((mkBall 203 204 8).y - (mkBumper 200 200 30 100).y) ∧
    magnitude ((mkBall 203 204 8).x - (mkBumper 200 200 30 100).x)
        ((mkBall 203 204 8).y - (mkBumper 200 200 30 100).y)
      < (mkBumper 200 200 30 100).radius + (mkBall 203 204 8).radius ∧
    magnitude ((((mkBumper 200 200 30 100).checkCollision (mkBall 203 204 8)).2.1).x
        - (mkBumper 200 200 30 100).x)
      ((((mkBumper 200 200 30 100).checkCollision (mkBall 203 204 8)).2.1).y
        - (mkBumper 200 200 30 100).y)
      = (mkBumper 200 200 30 100).radius + (mkBall 203 204 8).radius := by
  have hmagw : magnitude ((mkBall 203 204 8).x - (mkBumper 200 200 30 100).x)
      ((mkBall 203 204 8).y - (mkBumper 200 200 30 100).y) = 5 := by
    show magnitude ((203:ℝ) - 200) ((204:ℝ) - 200) = 5
    rw [show (203:ℝ) - 200 = 3 by norm_num, show (204:ℝ) - 200 = 4 by norm_num]
    exact magnitude_three_four
  have hforce : 0 < (mkBumper 200 200 30 100).bounceForce := by
    show (0:ℝ) < 15; norm_num
  have hpos : 0 < magnitude ((mkBall 203 204 8).x - (mkBumper 200 200 30 100).x)
      ((mkBall 203 204 8).y - (mkBumper 200 200 30 100).y) := by
    rw [hmagw]; norm_num
  have hlt : magnitude ((mkBall 203 204 8).x - (mkBumper 200 200 30 100).x)
      ((mkBall 203 204 8).y - (mkBumper 200 200 30 100).y)
      < (mkBumper 200 200 30 100).radius + (mkBall 203 204 8).radius := by
    rw [hmagw]; show (5:ℝ) < 30 + 8; norm_num
  exact ⟨hforce, hpos, hlt,
    (bumper_checkCollision_correct (mkBumper 200 200 30 100) (mkBall 203 204 8)
      hforce hpos hlt).2.2.1⟩

/-- Side tag shared by the Flipper and Slingshot classes of elements.js. -/
inductive Side where
  | left : Side
  | right : Side

/-- Precomputed edge record pushed by the Slingshot constructor: the two
end points, the stored normal and the edge length. -/
structure SEdge where
  p1x : ℝ
  p1y : ℝ
  p2x : ℝ
  p2y : ℝ
  nx : ℝ
  ny : ℝ
  length : ℝ

/-- Loop body of the Slingshot constructor: the edge from p1 to p2 with
normal (-dy / length, dx / length). -/
noncomputable def mkEdge (p1x p1y p2x p2y : ℝ) : SEdge :=
  let dx := p2x - p1x
  let dy := p2y - p1y
  let length := Real.sqrt (dx * dx + dy * dy)
  { p1x := p1x, p1y := p1y, p2x := p2x, p2y := p2y,
    nx := -dy / length, ny := dx / length, length := length }

/-- State of the Slingshot class from elements.js. -/
structure Slingshot where
  x : ℝ
  y : ℝ
  width : ℝ
  height : ℝ
  side : Side
  points : ℝ
  bounceForce : ℝ
  isLit : Bool
  hitTimer : ℕ
  hitDuration : ℕ
  v0 : ℝ × ℝ
  v1 : ℝ × ℝ
  v2 : ℝ × ℝ
  edges : List SEdge

/-- Constructor of the Slingshot class: side-dependent triangle vertices
and the three precomputed edges (the loop over the vertex list is
unrolled, the wrap-around edge closing the triangle included). -/
noncomputable def mkSlingshot (x y width height : ℝ) (side : Side) : Slingshot :=
  let v0 : ℝ × ℝ := (x, y)
  let v1 : ℝ × ℝ := match side with
    | Side.left => (x + width, y + height)
    | Side.right => (x - width, y + height)
  let v2 : ℝ × ℝ := (x, y + height)
  { x := x, y := y, width := width, height := height, side := side,
    points := 10, bounceForce := 12, isLit := false,
    hitTimer := 0, hitDuration := 5,
    v0 := v0, v1 := v1, v2 := v2,
    edges := [mkEdge v0.1 v0.2 v1.1 v1.2,
              mkEdge v1.1 v1.2 v2.1 v2.2,
              mkEdge v2.1 v2.2 v0.1 v0.2] }

/-- Midpoint of a precomputed edge (x coordinate); a spec-level notion
used to state which way the stored normal points. -/
noncomputable def SEdge.midX (e : SEdge) : ℝ := (e.p1x + e.p2x) / 2

/-- Midpoint of a precomputed edge (y coordinate). -/
noncomputable def SEdge.midY (e : SEdge) : ℝ := (e.p1y + e.p2y) / 2

/-- Centroid of the slingshot triangle (x coordinate); a spec-level notion
marking the interior of the triangle. -/
noncomputable def Slingshot.centroidX (s : Slingshot) : ℝ := (s.v0.1 + s.v1.1 + s.v2.1) / 3

/-- Centroid of the slingshot triangle (y coordinate). -/
noncomputable def Slingshot.centroidY (s : Slingshot) : ℝ := (s.v0.2 + s.v1.2 + s.v2.2) / 3

/-- Dot product of each stored edge normal with the vector from that edge
midpoint to the triangle centroid, in edge order.  The claim asserts all
of these are negative (outward normals). -/
noncomputable def Slingshot.edgeOutwardDots (s : Slingshot) : List ℝ :=
  s.edges.map (fun e =>
    e.nx * (s.centroidX - e.midX) + e.ny * (s.centroidY - e.midY))

/-- C3 refutation: for the left-side slingshot at (0,0) with width and
height 6 every stored edge normal has a strictly positive dot product with
the vector from the edge midpoint to the centroid, so all three normals
point into the triangle, not outward; the right-side slingshot of the same
size does satisfy the claim (all dots negative).  This evaluates the
constructor at the failing input of the code bug. -/
theorem slingshot_left_normals_point_inward :
    (mkSlingshot 0 0 6 6 Side.left).edgeOutwardDots
        = [12 / Real.sqrt 72, 2, 2] ∧
    0 < 12 / Real.sqrt 72 ∧
    (mkSlingshot 0 0 6 6 Side.right).edgeOutwardDots
        = [-(12 / Real.sqrt 72), -2, -2] ∧
    -(12 / Real.sqrt 72) < 0 := by
  have hs72 : 0 < Real.sqrt 72 := Real.sqrt_pos.mpr (by norm_num)
  have hpos : 0 < 12 / Real.sqrt 72 := div_pos (by norm_num) hs72
  have h36 : Real.sqrt 36 = 6 := by
    rw [show (36:ℝ) = 6 ^ 2 by norm_num, Real.sqrt_sq (by norm_num : (0:ℝ) ≤ 6)]
  refine ⟨?_, hpos, ?_, by linarith⟩
  · unfold mkSlingshot Slingshot.edgeOutwardDots mkEdge Slingshot.centroidX
      Slingshot.centroidY SEdge.midX SEdge.midY
    simp only [List.map]
    norm_num [h36]
    all_goals ring
  · unfold mkSlingshot Slingshot.edgeOutwardDots mkEdge Slingshot.centroidX
      Slingshot.centroidY SEdge.midX SEdge.midY
    simp only [List.map]
    norm_num [h36]
    all_goals ring

/-- State of the Flipper class from elements.js. -/
@[ext]
structure Flipper where
  x : ℝ
  y : ℝ
  width : ℝ
  height : ℝ
  side : Side
  angle : ℝ
  angularVelocity : ℝ
  maxAngularVelocity : ℝ
  restAngle : ℝ
  activeAngle : ℝ
  isActivated : Bool
  flipSpeed : ℝ
  returnSpeed : ℝ
  bounceFactor : ℝ

/-- Constructor of the Flipper class: rest and active angles depend on the
side, the angle starts at the rest angle. -/
noncomputable def mkFlipper (x y width height : ℝ) (side : Side) : Flipper :=
  let restAngle := match side with
    | Side.left => Real.pi / 6
    | Side.right => Real.pi - Real.pi / 6
  let activeAngle := match side with
    | Side.left => -(Real.pi / 6)
    | Side.right => Real.pi + Real.pi / 6
  { x := x, y := y, width := width, height := height, side := side,
    angle := restAngle, angularVelocity := 0, maxAngularVelocity := 0.5,
    restAngle := restAngle, activeAngle := activeAngle, isActivated := false,
    flipSpeed := 0.4, returnSpeed := 0.2, bounceFactor := 1.5 }

/-- Method Flipper.activate() from elements.js. -/
def Flipper.activate (f : Flipper) : Flipper := { f with isActivated := true }

/-- Method Flipper.deactivate() from elements.js. -/
def Flipper.deactivate (f : Flipper) : Flipper := { f with isActivated := false }

/-- Method Flipper.update() from elements.js: interpolate the angle toward
the target selected by the activated flag, recording the step as angular
velocity, or snap to the target and zero the angular velocity when within
the 0.01 epsilon. -/
noncomputable def Flipper.update (f : Flipper) : Flipper :=
  let targetAngle := if f.isActivated then f.activeAngle else f.restAngle
  let speed := if f.isActivated then f.flipSpeed else f.returnSpeed
  let angleDiff := targetAngle - f.angle
  if 0.01 < |angleDiff| then
    let av := Real.sign angleDiff * min |angleDiff| speed
    { f with angularVelocity := av, angle := f.angle + av }
  else
    { f with angle := targetAngle, angularVelocity := 0 }

theorem flipper_update_far_neg (f : Flipper) (hA : f.isActivated = true)
    (h1 : f.activeAngle - f.angle < 0)
    (h2 : (0.01:ℝ) < -(f.activeAngle - f.angle))
    (h3 : f.flipSpeed ≤ -(f.activeAngle - f.angle)) :
    f.update = { f with angularVelocity := -f.flipSpeed,
                        angle := f.angle - f.flipSpeed } := by
  have habs : |f.activeAngle - f.angle| = -(f.activeAngle - f.angle) :=
    abs_of_neg h1
  have hcond : (0.01:ℝ) < |f.activeAngle - f.angle| := by rw [habs]; exact h2
  have hsign : Real.sign (f.activeAngle - f.angle) = -1 := Real.sign_of_neg h1
  have hmin : min |f.activeAngle - f.angle| f.flipSpeed = f.flipSpeed := by
    rw [habs]; exact min_eq_right h3
  unfold Flipper.update
  simp only [hA, if_true, if_pos hcond, hsign, hmin]
  ext <;> simp <;> ring

theorem flipper_update_land_neg (f : Flipper) (hA : f.isActivated = true)
    (h1 : f.activeAngle - f.angle < 0)
    (h2 : (0.01:ℝ) < -(f.activeAngle - f.angle))
    (h3 : -(f.activeAngle - f.angle) ≤ f.flipSpeed) :
    f.update = { f with angularVelocity := f.activeAngle - f.angle,
                        angle := f.activeAngle } := by
  have habs : |f.activeAngle - f.angle| = -(f.activeAngle - f.angle) :=
    abs_of_neg h1
  have hcond : (0.01:ℝ) < |f.activeAngle - f.angle| := by rw [habs]; exact h2
  have hsign : Real.sign (f.activeAngle - f.angle) = -1 := Real.sign_of_neg h1
  have hmin : min |f.activeAngle - f.angle| f.flipSpeed
      = -(f.activeAngle - f.angle) := by
    rw [habs]; exact min_eq_left h3
  unfold Flipper.update
  simp only [hA, if_true, if_pos hcond, hsign, hmin]
  ext <;> simp <;> ring

theorem flipper_update_far_pos (f : Flipper) (hA : f.isActivated = true)
    (h1 : 0 < f.activeAngle - f.angle)
    (h2 : (0.01:ℝ) < f.activeAngle - f.angle)
    (h3 : f.flipSpeed ≤ f.activeAngle - f.angle) :
    f.update = { f with angularVelocity := f.flipSpeed,
                        angle := f.angle + f.flipSpeed } := by
  have habs : |f.activeAngle - f.angle| = f.activeAngle - f.angle :=
    abs_of_pos h1
  have hcond : (0.01:ℝ) < |f.activeAngle - f.angle| := by rw [habs]; exact h2
  have hsign : Real.sign (f.activeAngle - f.angle) = 1 := Real.sign_of_pos h1
  have hmin : min |f.activeAngle - f.angle| f.flipSpeed = f.flipSpeed := by
    rw [habs]; exact min_eq_right h3
  unfold Flipper.update
  simp only [hA, if_true, if_pos hcond, hsign, hmin]
  ext <;> simp

theorem flipper_update_land_pos (f : Flipper) (hA : f.isActivated = true)
    (h1 : 0 < f.activeAngle - f.angle)
    (h2 : (0.01:ℝ) < f.activeAngle - f.angle)
    (h3 : f.activeAngle - f.angle ≤ f.flipSpeed) :
    f.update = { f with angularVelocity := f.activeAngle - f.angle,
                        angle := f.activeAngle } := by
  have habs : |f.activeAngle - f.angle| = f.activeAngle - f.angle :=
    abs_of_pos h1
  have hcond : (0.01:ℝ) < |f.activeAngle - f.angle| := by rw [habs]; exact h2
  have hsign : Real.sign (f.activeAngle - f.angle) = 1 := Real.sign_of_pos h1
  have hmin : min |f.activeAngle - f.angle| f.flipSpeed
      = f.activeAngle - f.angle := by
    rw [habs]; exact min_eq_left h3
  unfold Flipper.update
  simp only [hA, if_true, if_pos hcond, hsign, hmin]
  ext <;> simp <;> ring

theorem flipper_update_done (f : Flipper) (hA : f.isActivated = true)
    (h : |f.activeAngle - f.angle| ≤ 0.01) :
    f.update = { f with angle := f.activeAngle, angularVelocity := 0 } := by
  have hcond : ¬ ((0.01:ℝ) < |f.activeAngle - f.angle|) := not_lt_of_le h
  unfold Flipper.update
  simp only [hA, if_true, if_neg hcond]

/-- Counterexample to C5 as stated: for the activated left flipper, the
third update lands the angle exactly on the active (target) angle while
recording a nonzero angular velocity, so the angular velocity is not zero
exactly when the angle equals the target. -/
theorem flipper_lands_on_target_with_nonzero_angular_velocity :
    ((mkFlipper 0 0 60 10 Side.left).activate.update.update.update).angle
      = ((mkFlipper 0 0 60 10 Side.left).activate.update.update.update).activeAngle ∧
    ((mkFlipper 0 0 60 10 Side.left).activate.update.update.update).angularVelocity
      ≠ 0 := by
  have hpi1 : 3.141592 < Real.pi := Real.pi_gt_d6
  have hpi2 : Real.pi < 3.15 := Real.pi_lt_d2
  set f0 := (mkFlipper 0 0 60 10 Side.left).activate with hf
  set g1 : Flipper := { f0 with angularVelocity := -f0.flipSpeed, angle := f0.angle - f0.flipSpeed } with hg1
  set g2 : Flipper := { g1 with angularVelocity := -g1.flipSpeed, angle := g1.angle - g1.flipSpeed } with hg2
  set g3 : Flipper := { g2 with angularVelocity := g2.activeAngle - g2.angle, angle := g2.activeAngle } with hg3
  have e1 : f0.update = g1 := by
    apply flipper_update_far_neg f0 rfl
    · show -(Real.pi / 6) - Real.pi / 6 < 0
      linarith
    · show (0.01:ℝ) < -(-(Real.pi / 6) - Real.pi / 6)
      linarith
    · show (0.4:ℝ) ≤ -(-(Real.pi / 6) - Real.pi / 6)
      linarith
  have e2 : g1.update = g2 := by
    apply flipper_update_far_neg g1 rfl
    · show -(Real.pi / 6) - (Real.pi / 6 - 0.4) < 0
      linarith
    · show (0.01:ℝ) < -(-(Real.pi / 6) - (Real.pi / 6 - 0.4))
      linarith
    · show (0.4:ℝ) ≤ -(-(Real.pi / 6) - (Real.pi / 6 - 0.4))
      linarith
  have e3 : g2.update = g3 := by
    apply flipper_update_land_neg g2 rfl
    · show -(Real.pi / 6) - (Real.pi / 6 - 0.4 - 0.4) < 0
      linarith
    · show (0.01:ℝ) < -(-(Real.pi / 6) - (Real.pi / 6 - 0.4 - 0.4))
      linarith
    · show -(-(Real.pi / 6) - (Real.pi / 6 - 0.4 - 0.4)) ≤ (0.4:ℝ)
      linarith
  have E : f0.update.update.update = g3 := by rw [e1, e2, e3]
  rw [E]
  constructor
  · rfl
  · show -(Real.pi / 6) - (Real.pi / 6 - 0.4 - 0.4) ≠ 0
    intro hzero
    have : Real.pi = 2.4 := by linarith
    linarith

/-- C5 amended: for every flipper activated from its rest angle, repeated
updates move the angle monotonically toward the active angle, reaching it
at the third update; the update that lands on the target records a nonzero
angular velocity (the remaining difference), and the angular velocity is
zeroed one update later, once the angle already equals the target. -/
theorem flipper_activated_monotone_bounded_reach (x y w h : ℝ) :
    ((Flipper.update^[1] (mkFlipper x y w h Side.left).activate).angle
        = Real.pi / 6 - 0.4 ∧
      (Flipper.update^[2] (mkFlipper x y w h Side.left).activate).angle
        = Real.pi / 6 - 0.8 ∧
      (Flipper.update^[3] (mkFlipper x y w h Side.left).activate).angle
        = ((mkFlipper x y w h Side.left).activate).activeAngle ∧
      (Flipper.update^[3] (mkFlipper x y w h Side.left).activate).angularVelocity
        ≠ 0 ∧
      (Flipper.update^[4] (mkFlipper x y w h Side.left).activate).angle
        = ((mkFlipper x y w h Side.left).activate).activeAngle ∧
      (Flipper.update^[4] (mkFlipper x y w h Side.left).activate).angularVelocity
        = 0 ∧
      (Flipper.update^[3] (mkFlipper x y w h Side.left).activate).angle
        < (Flipper.update^[2] (mkFlipper x y w h Side.left).activate).angle ∧
      (Flipper.update^[2] (mkFlipper x y w h Side.left).activate).angle
        < (Flipper.update^[1] (mkFlipper x y w h Side.left).activate).angle ∧
      (Flipper.update^[1] (mkFlipper x y w h Side.left).activate).angle
        < ((mkFlipper x y w h Side.left).activate).angle ∧
      ((mkFlipper x y w h Side.left).activate).activeAngle
        ≤ (Flipper.update^[2] (mkFlipper x y w h Side.left).activate).angle) ∧
    ((Flipper.update^[1] (mkFlipper x y w h Side.right).activate).angle
        = Real.pi - Real.pi / 6 + 0.4 ∧
      (Flipper.update^[2] (mkFlipper x y w h Side.right).activate).angle
        = Real.pi - Real.pi / 6 + 0.8 ∧
      (Flipper.update^[3] (mkFlipper x y w h Side.right).activate).angle
        = ((mkFlipper x y w h Side.right).activate).activeAngle ∧
      (Flipper.update^[3] (mkFlipper x y w h Side.right).activate).angularVelocity
        ≠ 0 ∧
      (Flipper.update^[4] (mkFlipper x y w h Side.right).activate).angle
        = ((mkFlipper x y w h Side.right).activate).activeAngle ∧
      (Flipper.update^[4] (mkFlipper x y w h Side.right).activate).angularVelocity
        = 0 ∧
      (Flipper.update^[2] (mkFlipper x y w h Side.right).activate).angle
        < (Flipper.update^[3] (mkFlipper x y w h Side.right).activate).angle ∧
      (Flipper.update^[1] (mkFlipper x y w h Side.right).activate).angle
        < (Flipper.update^[2] (mkFlipper x y w h Side.right).activate).angle ∧
      ((mkFlipper x y w h Side.right).activate).angle
        < (Flipper.update^[1] (mkFlipper x y w h Side.right).activate).angle ∧
      (Flipper.update^[2] (mkFlipper x y w h Side.right).activate).angle
        ≤ ((mkFlipper x y w h Side.right).activate).activeAngle) := by
  have hpi1 : 3.141592 < Real.pi := Real.pi_gt_d6
  have hpi2 : Real.pi < 3.15 := Real.pi_lt_d2
  constructor
  · set f0 := (mkFlipper x y w h Side.left).activate with hf
    set g1 : Flipper := { f0 with angularVelocity := -f0.flipSpeed, angle := f0.angle - f0.flipSpeed } with hg1
    set g2 : Flipper := { g1 with angularVelocity := -g1.flipSpeed, angle := g1.angle - g1.flipSpeed } with hg2
    set g3 : Flipper := { g2 with angularVelocity := g2.activeAngle - g2.angle, angle := g2.activeAngle } with hg3
    set g4 : Flipper := { g3 with angle := g3.activeAngle, angularVelocity := 0 } with hg4
    have e1 : f0.update = g1 := by
      apply flipper_update_far_neg f0 rfl
      · show -(Real.pi / 6) - Real.pi / 6 < 0
        linarith
      · show (0.01:ℝ) < -(-(Real.pi / 6) - Real.pi / 6)
        linarith
      · show (0.4:ℝ) ≤ -(-(Real.pi / 6) - Real.pi / 6)
        linarith
    have e2 : g1.update = g2 := by
      apply flipper_update_far_neg g1 rfl
      · show -(Real.pi / 6) - (Real.pi / 6 - 0.4) < 0
        linarith
      · show (0.01:ℝ) < -(-(Real.pi / 6) - (Real.pi / 6 - 0.4))
        linarith
      · show (0.4:ℝ) ≤ -(-(Real.pi / 6) - (Real.pi / 6 - 0.4))
        linarith
    have e3 : g2.update = g3 := by
      apply flipper_update_land_neg g2 rfl
      · show -(Real.pi / 6) - (Real.pi / 6 - 0.4 - 0.4) < 0
        linarith
      · show (0.01:ℝ) < -(-(Real.pi / 6) - (Real.pi / 6 - 0.4 - 0.4))
        linarith
      · show -(-(Real.pi / 6) - (Real.pi / 6 - 0.4 - 0.4)) ≤ (0.4:ℝ)
        linarith
    have e4 : g3.update = g4 := by
      apply flipper_update_done g3 rfl
      show |(-(Real.pi / 6)) - (-(Real.pi / 6))| ≤ (0.01:ℝ)
      rw [sub_self, abs_zero]
      norm_num
    have E1 : Flipper.update^[1] f0 = g1 := by
      simp only [Function.iterate_one]; exact e1
    have E2 : Flipper.update^[2] f0 = g2 := by
      rw [show (2:ℕ) = 1 + 1 from rfl, Function.iterate_add_apply, E1,
        Function.iterate_one]; exact e2
    have E3 : Flipper.update^[3] f0 = g3 := by
      rw [show (3:ℕ) = 1 + 2 from rfl, Function.iterate_add_apply, E2,
        Function.iterate_one]; exact e3
    have E4 : Flipper.update^[4] f0 = g4 := by
      rw [show (4:ℕ) = 1 + 3 from rfl, Function.iterate_add_apply, E3,
        Function.iterate_one]; exact e4
    rw [E1, E2, E3, E4]
    refine ⟨?_, ?_, rfl, ?_, rfl, rfl, ?_, ?_, ?_, ?_⟩
    · show Real.pi / 6 - 0.4 = Real.pi / 6 - 0.4
      rfl
    · show Real.pi / 6 - 0.4 - 0.4 = Real.pi / 6 - 0.8
      ring
    · show -(Real.pi / 6) - (Real.pi / 6 - 0.4 - 0.4) ≠ 0
      intro hzero
      have : Real.pi = 2.4 := by linarith
      linarith
    · show -(Real.pi / 6) < Real.pi / 6 - 0.4 - 0.4
      linarith
    · show Real.pi / 6 - 0.4 - 0.4 < Real.pi / 6 - 0.4
      linarith
    · show Real.pi / 6 - 0.4 < Real.pi / 6
      linarith
    · show -(Real.pi / 6) ≤ Real.pi / 6 - 0.4 - 0.4
      linarith
  · set f0 := (mkFlipper x y w h Side.right).activate with hf
    set g1 : Flipper := { f0 with angularVelocity := f0.flipSpeed, angle := f0.angle + f0.flipSpeed } with hg1
    set g2 : Flipper := { g1 with angularVelocity := g1.flipSpeed, angle := g1.angle + g1.flipSpeed } with hg2
    set g3 : Flipper := { g2 with angularVelocity := g2.activeAngle - g2.angle, angle := g2.activeAngle } with hg3
    set g4 : Flipper := { g3 with angle := g3.activeAngle, angularVelocity := 0 } with hg4
    have e1 : f0.update = g1 := by
      apply flipper_update_far_pos f0 rfl
      · show 0 < Real.pi + Real.pi / 6 - (Real.pi - Real.pi / 6)
        linarith
      · show (0.01:ℝ) < Real.pi + Real.pi / 6 - (Real.pi - Real.pi / 6)
        linarith
      · show (0.4:ℝ) ≤ Real.pi + Real.pi / 6 - (Real.pi - Real.pi / 6)
        linarith
    have e2 : g1.update = g2 := by
      apply flipper_update_far_pos g1 rfl
      · show 0 < Real.pi + Real.pi / 6 - (Real.pi - Real.pi / 6 + 0.4)
        linarith
      · show (0.01:ℝ) < Real.pi + Real.pi / 6 - (Real.pi - Real.pi / 6 + 0.4)
        linarith
      · show (0.4:ℝ) ≤ Real.pi + Real.pi / 6 - (Real.pi - Real.pi / 6 + 0.4)
        linarith
    have e3 : g2.update = g3 := by
      apply flipper_update_land_pos g2 rfl
      · show 0 < Real.pi + Real.pi / 6 - (Real.pi - Real.pi / 6 + 0.4 + 0.4)
        linarith
      · show (0.01:ℝ) < Real.pi + Real.pi / 6 - (Real.pi - Real.pi / 6 + 0.4 + 0.4)
        linarith
      · show Real.pi + Real.pi / 6 - (Real.pi - Real.pi / 6 + 0.4 + 0.4) ≤ (0.4:ℝ)
        linarith
    have e4 : g3.update = g4 := by
      apply flipper_update_done g3 rfl
      show |(Real.pi + Real.pi / 6) - (Real.pi + Real.pi / 6)| ≤ (0.01:ℝ)
      rw [sub_self, abs_zero]
      norm_num
    have E1 : Flipper.update^[1] f0 = g1 := by
      simp only [Function.iterate_one]; exact e1
    have E2 : Flipper.update^[2] f0 = g2 := by
      rw [show (2:ℕ) = 1 + 1 from rfl, Function.iterate_add_apply, E1,
        Function.iterate_one]; exact e2
    have E3 : Flipper.update^[3] f0 = g3 := by
      rw [show (3:ℕ) = 1 + 2 from rfl, Function.iterate_add_apply, E2,
        Function.iterate_one]; exact e3
    have E4 : Flipper.update^[4] f0 = g4 := by
      rw [show (4:ℕ) = 1 + 3 from rfl, Function.iterate_add_apply, E3,
        Function.iterate_one]; exact e4
    rw [E1, E2, E3, E4]
    refine ⟨?_, ?_, rfl, ?_, rfl, rfl, ?_, ?_, ?_, ?_⟩
    · show Real.pi - Real.pi / 6 + 0.4 = Real.pi - Real.pi / 6 + 0.4
      rfl
    · show Real.pi - Real.pi / 6 + 0.4 + 0.4 = Real.pi - Real.pi / 6 + 0.8
      ring
    · show Real.pi + Real.pi / 6 - (Real.pi - Real.pi / 6 + 0.4 + 0.4) ≠ 0
      intro hzero
      have : Real.pi = 2.4 := by linarith
      linarith
    · show Real.pi - Real.pi / 6 + 0.4 + 0.4 < Real.pi + Real.pi / 6
      linarith
    · show Real.pi - Real.pi / 6 + 0.4 < Real.pi - Real.pi / 6 + 0.4 + 0.4
      linarith
    · show Real.pi - Real.pi / 6 < Real.pi - Real.pi / 6 + 0.4
      linarith
    · show Real.pi - Real.pi / 6 + 0.4 + 0.4 ≤ Real.pi + Real.pi / 6
      linarith

/-- State of the Wall class from elements.js: an immutable segment. -/
structure Wall where
  x1 : ℝ
  y1 : ℝ
  x2 : ℝ
  y2 : ℝ

/-- Precomputed this.dx of the Wall constructor. -/
def Wall.dx (w : Wall) : ℝ := w.x2 - w.x1

/-- Precomputed this.dy of the Wall constructor. -/
def Wall.dy (w : Wall) : ℝ := w.y2 - w.y1

/-- Precomputed this.length of the Wall constructor. -/
noncomputable def Wall.length (w : Wall) : ℝ :=
  Real.sqrt (w.dx * w.dx + w.dy * w.dy)

/-- Precomputed this.normalX of the Wall constructor. -/
noncomputable def Wall.normalX (w : Wall) : ℝ := -w.dy / w.length

/-- Precomputed this.normalY of the Wall constructor. -/
noncomputable def Wall.normalY (w : Wall) : ℝ := w.dx / w.length

/-- Sum of two JavaScript numbers where none stands for a non-finite value
(NaN or an infinity); non-finite inputs poison the result, as NaN does. -/
def jadd : Option ℝ → Option ℝ → Option ℝ
  | some a, some b => some (a + b)
  | _, _ => none

/-- Difference of two JavaScript numbers with non-finite poisoning. -/
def jsub : Option ℝ → Option ℝ → Option ℝ
  | some a, some b => some (a - b)
  | _, _ => none

/-- Product of two JavaScript numbers with non-finite poisoning. -/
def jmul : Option ℝ → Option ℝ → Option ℝ
  | some a, some b => some (a * b)
  | _, _ => none

/-- Quotient of two JavaScript numbers: division by zero produces a
non-finite value (at every division site modelled below the numerator is
zero whenever the denominator is, so the produced value is the NaN of
JavaScript 0/0). -/
noncomputable def jdiv : Option ℝ → Option ℝ → Option ℝ
  | some a, some b => if b = 0 then none else some (a / b)
  | _, _ => none

/-- Ball coordinates after a collision routine, each possibly non-finite. -/
structure BallJ where
  x : Option ℝ
  y : Option ℝ
  vx : Option ℝ
  vy : Option ℝ

/-- Method Wall.checkCollision(ball) from elements.js with JavaScript
division semantics at the normalization site: the source divides
distX / dist and distY / dist without guarding dist = 0, so a ball whose
center lies exactly on the segment produces NaN.  The projection divisor
length * length is nonzero for the walls considered here (the constructor
itself would already produce NaN normals for a zero-length wall). -/
noncomputable def Wall.checkCollisionJ (w : Wall) (b : Ball) : BallJ × Bool :=
  let t := clamp (((b.x - w.x1) * w.dx + (b.y - w.y1) * w.dy) /
    (w.length * w.length)) 0 1
  let closestX := w.x1 + t * w.dx
  let closestY := w.y1 + t * w.dy
  let distX := b.x - closestX
  let distY := b.y - closestY
  let dist := Real.sqrt (distX * distX + distY * distY)
  if dist < b.radius then
    let nx := jdiv (some distX) (some dist)
    let ny := jdiv (some distY) (some dist)
    let overlap : Option ℝ := some (b.radius - dist)
    let newX := jadd (some b.x) (jmul nx overlap)
    let newY := jadd (some b.y) (jmul ny overlap)
    let dotP := jadd (jmul (some b.vx) nx) (jmul (some b.vy) ny)
    let newVx := jmul (jsub (some b.vx) (jmul (jmul (some 2) dotP) nx)) (some 0.95)
    let newVy := jmul (jsub (some b.vy) (jmul (jmul (some 2) dotP) ny)) (some 0.95)
    ({ x := newX, y := newY, vx := newVx, vy := newVy }, true)
  else ({ x := some b.x, y := some b.y, vx := some b.vx, vy := some b.vy }, false)

/-- Function resolveFlipperCollision(ball, collision, ...) from physics.js
with JavaScript division semantics at the tangent site: the source divides
-dy / dist and dx / dist without guarding dist = 0, so a contact point that
coincides with the pivot produces NaN velocities.  The subsequent
resolveCollision reflection and position correction are inlined. -/
noncomputable def resolveFlipperCollisionJ (b : Ball) (c : Contact)
    (flipperAngularVelocity pivotX pivotY flipperBounciness : ℝ) : BallJ :=
  let dx := c.px - pivotX
  let dy := c.py - pivotY
  let dist := Real.sqrt (dx * dx + dy * dy)
  let tangentX := jdiv (some (-dy)) (some dist)
  let tangentY := jdiv (some dx) (some dist)
  let flipperSpeed := flipperAngularVelocity * dist
  let vx1 := jadd (some b.vx) (jmul tangentX (some flipperSpeed))
  let vy1 := jadd (some b.vy) (jmul tangentY (some flipperSpeed))
  let dotP := jadd (jmul vx1 (some c.nx)) (jmul vy1 (some c.ny))
  let newVx := jmul (jsub vx1 (jmul (jmul (some 2) dotP) (some c.nx)))
    (some flipperBounciness)
  let newVy := jmul (jsub vy1 (jmul (jmul (some 2) dotP) (some c.ny)))
    (some flipperBounciness)
  let newX := if 0 < c.depth then some (b.x + c.nx * c.depth) else some b.x
  let newY := if 0 < c.depth then some (b.y + c.ny * c.depth) else some b.y
  { x := newX, y := newY, vx := newVx, vy := newVy }

theorem sqrt_hundred : Real.sqrt 100 = 10 := by
  rw [show (100:ℝ) = 10 ^ 2 by norm_num,
    Real.sqrt_sq (by norm_num : (0:ℝ) ≤ 10)]

/-- Counterexample to C4 as stated: a ball of radius 8 whose center (5,0)
lies exactly on the wall from (0,0) to (10,0) makes Wall.checkCollision
divide zero by zero, leaving every position and velocity component of the
ball non-finite (NaN); likewise resolveFlipperCollision with the contact
point exactly at the pivot leaves both velocity components NaN. -/
theorem wall_checkCollision_on_segment_writes_nan :
    ((Wall.mk 0 0 10 0).checkCollisionJ (mkBall 5 0 8)).1.x = none ∧
    ((Wall.mk 0 0 10 0).checkCollisionJ (mkBall 5 0 8)).1.y = none ∧
    ((Wall.mk 0 0 10 0).checkCollisionJ (mkBall 5 0 8)).1.vx = none ∧
    ((Wall.mk 0 0 10 0).checkCollisionJ (mkBall 5 0 8)).1.vy = none ∧
    ((Wall.mk 0 0 10 0).checkCollisionJ (mkBall 5 0 8)).2 = true ∧
    (resolveFlipperCollisionJ (mkBall 100 100 8)
      { px := 3, py := 4, nx := 0, ny := 1, depth := 2 } 0.5 3 4 1.2).vx = none ∧
    (resolveFlipperCollisionJ (mkBall 100 100 8)
      { px := 3, py := 4, nx := 0, ny := 1, depth := 2 } 0.5 3 4 1.2).vy = none := by
  have hw : ((Wall.mk 0 0 10 0).checkCollisionJ (mkBall 5 0 8)).1.x = none ∧
      ((Wall.mk 0 0 10 0).checkCollisionJ (mkBall 5 0 8)).1.y = none ∧
      ((Wall.mk 0 0 10 0).checkCollisionJ (mkBall 5 0 8)).1.vx = none ∧
      ((Wall.mk 0 0 10 0).checkCollisionJ (mkBall 5 0 8)).1.vy = none ∧
      ((Wall.mk 0 0 10 0).checkCollisionJ (mkBall 5 0 8)).2 = true := by
    have hlen : (Wall.mk 0 0 10 0).length = 10 := by
      unfold Wall.length Wall.dx Wall.dy
      norm_num [sqrt_hundred]
    unfold Wall.checkCollisionJ
    rw [hlen]
    unfold Wall.dx Wall.dy mkBall clamp
    norm_num
    norm_num [jdiv, jadd, jsub, jmul]
  refine ⟨hw.1, hw.2.1, hw.2.2.1, hw.2.2.2.1, hw.2.2.2.2, ?_, ?_⟩
  · unfold resolveFlipperCollisionJ
    norm_num [Real.sqrt_zero, jdiv, jadd, jsub, jmul]
  · unfold resolveFlipperCollisionJ
    norm_num [Real.sqrt_zero, jdiv, jadd, jsub, jmul]

theorem wall4_nan :
    ((Wall.mk 0 0 8 0).checkCollisionJ (mkBall 4 0 5)).1.x = none ∧
    ((Wall.mk 0 0 8 0).checkCollisionJ (mkBall 4 0 5)).1.vx = none := by
  have hlen : (Wall.mk 0 0 8 0).length = 8 := by
    unfold Wall.length Wall.dx Wall.dy
    rw [show ((8:ℝ) - 0) * ((8:ℝ) - 0) + ((0:ℝ) - 0) * ((0:ℝ) - 0) = 8 ^ 2 by
      norm_num]
    exact Real.sqrt_sq (by norm_num : (0:ℝ) ≤ 8)
  unfold Wall.checkCollisionJ
  rw [hlen]
  unfold Wall.dx Wall.dy mkBall clamp
  norm_num
  norm_num [jdiv, jadd, jsub, jmul]

/-- C4 amended: the shared helpers are guarded (normalize returns the zero
vector on zero-length input, circleLineCollision reports no contact when
the center lies exactly on the segment, Bumper.hit returns 0 and mutates
nothing at exact center overlap), but Wall.checkCollision and
resolveFlipperCollision are not: with the ball center exactly on the wall
segment, or the contact point exactly at the pivot, they divide zero by
zero and the ball state becomes non-finite (NaN). -/
theorem division_guards_except_wall_and_flipper_resolver :
    normalize 0 0 = (0, 0) ∧
    circleLineCollision (mkBall 4 0 5) 0 0 8 0 = none ∧
    (mkBumper 0 0 30 100).hit (mkBall 0 0 8)
      = (mkBumper 0 0 30 100, mkBall 0 0 8, 0) ∧
    ((Wall.mk 0 0 8 0).checkCollisionJ (mkBall 4 0 5)).1.x = none ∧
    ((Wall.mk 0 0 8 0).checkCollisionJ (mkBall 4 0 5)).1.vx = none ∧
    (resolveFlipperCollisionJ (mkBall 7 2 8)
      { px := 6, py := 1, nx := 1, ny := 0, depth := 0 } 1 6 1 1.2).vx = none := by
  refine ⟨?_, ?_, ?_, ?_, ?_, ?_⟩
  · unfold normalize
    norm_num
  · have hlen : magnitude ((8:ℝ) - 0) ((0:ℝ) - 0) = 8 := by
      unfold magnitude
      rw [show ((8:ℝ) - 0) * ((8:ℝ) - 0) + ((0:ℝ) - 0) * ((0:ℝ) - 0) = 8 ^ 2 by
        norm_num]
      exact Real.sqrt_sq (by norm_num : (0:ℝ) ≤ 8)
    simp only [circleLineCollision, mkBall]
    rw [hlen]
    unfold dotv clamp
    norm_num [min_def, max_def]
    norm_num [magnitude, Real.sqrt_zero]
  · have hz : magnitude ((mkBall 0 0 8).x - (mkBumper 0 0 30 100).x)
        ((mkBall 0 0 8).y - (mkBumper 0 0 30 100).y) = 0 := by
      show magnitude ((0:ℝ) - 0) ((0:ℝ) - 0) = 0
      unfold magnitude
      norm_num
    unfold Bumper.hit
    rw [if_pos hz]
  · have h := wall4_nan
    exact h.1
  · exact wall4_nan.2
  · unfold resolveFlipperCollisionJ
    norm_num [Real.sqrt_zero, jdiv, jadd, jsub, jmul]

/-- State of the Spinner class from elements.js.  The full-rotation count
is compared and stored as Math.floor output, an integer. -/
structure Spinner where
  x : ℝ
  y : ℝ
  width : ℝ
  height : ℝ
  points : ℝ
  angle : ℝ
  angularVelocity : ℝ
  friction : ℝ
  spinsCount : ℤ
  lastAngle : ℝ

/-- Constructor of the Spinner class. -/
def mkSpinner (x y width height points : ℝ) : Spinner :=
  { x := x, y := y, width := width, height := height, points := points,
    angle := 0, angularVelocity := 0, friction := 0.98,
    spinsCount := 0, lastAngle := 0 }

/-- Method Spinner.update() from elements.js: advance the angle by the
angular velocity, decay the angular velocity, raise spinsCount to
floor(angle / 2 pi) when that is larger, then normalize the angle by one
2 pi subtraction when it exceeds 2 pi. -/
noncomputable def Spinner.update (s : Spinner) : Spinner :=
  let angle1 := s.angle + s.angularVelocity
  let av1 := s.angularVelocity * s.friction
  let fullRotations : ℤ := ⌊angle1 / (Real.pi * 2)⌋
  let spins1 := if s.spinsCount < fullRotations then fullRotations else s.spinsCount
  let angle2 := if Real.pi * 2 < angle1 then angle1 - Real.pi * 2 else angle1
  { s with angle := angle2, angularVelocity := av1, spinsCount := spins1 }

theorem spinner_update_eval (s : Spinner) (k : ℤ)
    (hfloor : ⌊(s.angle + s.angularVelocity) / (Real.pi * 2)⌋ = k)
    (hlt : s.spinsCount < k)
    (hgt : Real.pi * 2 < s.angle + s.angularVelocity) :
    s.update = { s with angle := s.angle + s.angularVelocity - Real.pi * 2,
                        angularVelocity := s.angularVelocity * s.friction,
                        spinsCount := k } := by
  unfold Spinner.update
  simp only [hfloor, if_pos hlt, if_pos hgt]

theorem spinner_update_eval_nocount (s : Spinner) (k : ℤ)
    (hfloor : ⌊(s.angle + s.angularVelocity) / (Real.pi * 2)⌋ = k)
    (hge : ¬ s.spinsCount < k)
    (hgt : Real.pi * 2 < s.angle + s.angularVelocity) :
    s.update = { s with angle := s.angle + s.angularVelocity - Real.pi * 2,
                        angularVelocity := s.angularVelocity * s.friction } := by
  unfold Spinner.update
  simp only [hfloor, if_neg hge, if_pos hgt]

/-- C9 amended: across updates spinsCount is non-decreasing and is never
reset, and one update raises it to the floor of the advanced angle over
2 pi when that is larger; but because the angle is renormalized by 2 pi
after a counted rotation while spinsCount is overwritten with (not
incremented by) that floor, later full rotations can leave it unchanged,
so after k completed rotations of accumulated angle spinsCount can be
smaller than k. -/
theorem spinner_spinsCount_monotone_max (s : Spinner) :
    s.update.spinsCount
      = max s.spinsCount ⌊(s.angle + s.angularVelocity) / (Real.pi * 2)⌋ ∧
    s.spinsCount ≤ s.update.spinsCount := by
  have hmain : s.update.spinsCount
      = max s.spinsCount ⌊(s.angle + s.angularVelocity) / (Real.pi * 2)⌋ := by
    unfold Spinner.update
    by_cases h : s.spinsCount < ⌊(s.angle + s.angularVelocity) / (Real.pi * 2)⌋
    · simp only [if_pos h]
      exact (max_eq_right (le_of_lt h)).symm
    · simp only [if_neg h]
      exact (max_eq_left (le_of_not_lt h)).symm
  exact ⟨hmain, by rw [hmain]; exact le_max_left _ _⟩

/-- Spinner state with a pending angular velocity of 7 radians per frame,
as left behind by ball impacts; used to exercise the rotation counter. -/
noncomputable def spinnerCE : Spinner :=
  { x := 0, y := 0, width := 4, height := 1, points := 25,
    angle := 0, angularVelocity := 7, friction := 49/50,
    spinsCount := 0, lastAngle := 0 }

/-- Counterexample to C9 as stated: starting from angle 0 with angular
velocity 7, two updates accumulate a total rotation of 7 + 7 * (49/50)
= 13.86 radians, which is more than two full turns (floor of the
accumulated rotation over 2 pi is 2), yet spinsCount ends at 1: the second
completed rotation is never counted. -/
theorem spinner_misses_second_rotation :
    spinnerCE.update.update.spinsCount = 1 ∧
    ⌊((7:ℝ) + 7 * (49/50)) / (Real.pi * 2)⌋ = 2 ∧
    (1:ℤ) ≠ 2 := by
  have hpi1 : 3.141592 < Real.pi := Real.pi_gt_d6
  have hpi2 : Real.pi < 3.15 := Real.pi_lt_d2
  have h2pi : (0:ℝ) < Real.pi * 2 := by linarith
  have hfloor1 : ⌊(spinnerCE.angle + spinnerCE.angularVelocity) / (Real.pi * 2)⌋
      = (1:ℤ) := by
    show ⌊((0:ℝ) + 7) / (Real.pi * 2)⌋ = (1:ℤ)
    rw [Int.floor_eq_iff]
    constructor
    · push_cast
      rw [le_div_iff h2pi]
      linarith
    · push_cast
      rw [div_lt_iff h2pi]
      linarith
  have e1 : spinnerCE.update = { spinnerCE with
      angle := spinnerCE.angle + spinnerCE.angularVelocity - Real.pi * 2,
      angularVelocity := spinnerCE.angularVelocity * spinnerCE.friction,
      spinsCount := 1 } := by
    apply spinner_update_eval spinnerCE 1 hfloor1
    · show (0:ℤ) < 1
      norm_num
    · show Real.pi * 2 < (0:ℝ) + 7
      linarith
  set s1 : Spinner := { spinnerCE with
      angle := spinnerCE.angle + spinnerCE.angularVelocity - Real.pi * 2,
      angularVelocity := spinnerCE.angularVelocity * spinnerCE.friction,
      spinsCount := 1 } with hs1
  have hfloor2 : ⌊(s1.angle + s1.angularVelocity) / (Real.pi * 2)⌋ = (1:ℤ) := by
    show ⌊((0:ℝ) + 7 - Real.pi * 2 + 7 * (49/50)) / (Real.pi * 2)⌋ = (1:ℤ)
    rw [Int.floor_eq_iff]
    constructor
    · push_cast
      rw [le_div_iff h2pi]
      linarith
    · push_cast
      rw [div_lt_iff h2pi]
      linarith
  have e2 : s1.update = { s1 with
      angle := s1.angle + s1.angularVelocity - Real.pi * 2,
      angularVelocity := s1.angularVelocity * s1.friction } := by
    apply spinner_update_eval_nocount s1 1 hfloor2
    · show ¬ ((1:ℤ) < 1)
      norm_num
    · show Real.pi * 2 < (0:ℝ) + 7 - Real.pi * 2 + 7 * (49/50)
      linarith
  refine ⟨?_, ?_, by norm_num⟩
  · rw [e1] at *
    rw [e2]
  · rw [Int.floor_eq_iff]
    constructor
    · push_cast
      rw [le_div_iff h2pi]
      linarith
    · push_cast
      rw [div_lt_iff h2pi]
      linarith

/-- State of the Kicker class from elements.js.  The capturedBall back
reference of the source always points at the ball captured by
checkCollision; in this single-ball model the held ball is the Ball value
passed alongside the kicker (the ownership-transfer reading of the spec),
so hasBall doubles as the presence of capturedBall. -/
@[ext]
structure Kicker where
  x : ℝ
  y : ℝ
  radius : ℝ
  ejectAngle : ℝ
  ejectForce : ℝ
  points : ℝ
  hasBall : Bool
  holdTimer : ℕ
  holdDuration : ℕ
  pulsePhase : ℝ

/-- Constructor of the Kicker class (holdDuration is the fixed 60). -/
def mkKicker (x y radius ejectAngle ejectForce points : ℝ) : Kicker :=
  { x := x, y := y, radius := radius, ejectAngle := ejectAngle,
    ejectForce := ejectForce, points := points,
    hasBall := false, holdTimer := 0, holdDuration := 60, pulsePhase := 0 }

/-- Method Kicker.checkCollision(ball) from elements.js: no capture while
holding; otherwise capture when the center distance is below the capture
radius, zeroing the velocity, centering and holding the ball, starting the
hold countdown and returning the points. -/
noncomputable def Kicker.checkCollision (k : Kicker) (b : Ball) :
    Kicker × Ball × ℝ :=
  if k.hasBall then (k, b, 0)
  else if magnitude (b.x - k.x) (b.y - k.y) < k.radius then
    ({ k with hasBall := true, holdTimer := k.holdDuration },
     { b with vx := 0, vy := 0, x := k.x, y := k.y, isHeld := true },
     k.points)
  else (k, b, 0)

/-- Method Kicker.ejectBall() from elements.js, with the captured ball
passed explicitly: sets the eject velocity, releases the held flag and
clears hasBall. -/
noncomputable def Kicker.ejectBall (k : Kicker) (b : Ball) : Kicker × Ball :=
  ({ k with hasBall := false },
   { b with vx := Real.cos k.ejectAngle * k.ejectForce,
            vy := Real.sin k.ejectAngle * k.ejectForce, isHeld := false })

/-- Method Kicker.update() from elements.js: advance the pulse animation,
and while holding count the hold timer down, ejecting when it reaches
zero. -/
noncomputable def Kicker.update (k : Kicker) (b : Ball) : Kicker × Ball :=
  let k1 := { k with pulsePhase := k.pulsePhase + 0.1 }
  if k1.hasBall = true ∧ 0 < k1.holdTimer then
    let k2 := { k1 with holdTimer := k1.holdTimer - 1 }
    if k2.holdTimer = 0 then k2.ejectBall b else (k2, b)
  else (k1, b)

/-- Per-frame step of the kicker and its (possibly held) ball. -/
noncomputable def Kicker.step (s : Kicker × Ball) : Kicker × Ball :=
  Kicker.update s.1 s.2

theorem kicker_update_tick (k : Kicker) (b : Ball) (hB : k.hasBall = true)
    (ht : 0 < k.holdTimer) (hnz : ¬ (k.holdTimer - 1 = 0)) :
    Kicker.update k b
      = ({ k with
           pulsePhase := k.pulsePhase + 0.1,
           holdTimer := k.holdTimer - 1 }, b) := by
  unfold Kicker.update
  simp only [if_pos (show k.hasBall = true ∧ 0 < k.holdTimer from ⟨hB, ht⟩),
    if_neg hnz]

theorem kicker_update_eject (k : Kicker) (b : Ball) (hB : k.hasBall = true)
    (ht : 0 < k.holdTimer) (hz : k.holdTimer - 1 = 0) :
    Kicker.update k b
      = ({ k with
           pulsePhase := k.pulsePhase + 0.1,
           holdTimer := 0,
           hasBall := false },
         { b with
           vx := Real.cos k.ejectAngle * k.ejectForce,
           vy := Real.sin k.ejectAngle * k.ejectForce,
           isHeld := false }) := by
  unfold Kicker.update Kicker.ejectBall
  simp only [if_pos (show k.hasBall = true ∧ 0 < k.holdTimer from ⟨hB, ht⟩),
    if_pos hz, hz, if_true]

theorem kicker_countdown (b : Ball) (k : Kicker) (h : k.hasBall = true) :
    ∀ n : ℕ, n < k.holdTimer →
      Kicker.step^[n] (k, b)
        = ({ k with
             holdTimer := k.holdTimer - n,
             pulsePhase := k.pulsePhase + (n : ℝ) * 0.1 }, b) := by
  intro n
  induction n with
  | zero =>
    intro _
    simp only [Function.iterate_zero, id_eq, Nat.sub_zero, Nat.cast_zero,
      zero_mul, add_zero]
  | succ n ih =>
    intro hn
    have hn' : n < k.holdTimer := Nat.lt_of_succ_lt hn
    rw [Function.iterate_succ_apply', ih hn']
    show Kicker.update _ _ = _
    have ht : 0 < k.holdTimer - n := Nat.sub_pos_of_lt hn'
    have hnz : ¬ (k.holdTimer - n - 1 = 0) := by omega
    rw [kicker_update_tick ({ k with holdTimer := k.holdTimer - n, pulsePhase := k.pulsePhase + (n : ℝ) * 0.1 } : Kicker) b h ht hnz]
    have hsub : k.holdTimer - n - 1 = k.holdTimer - (n + 1) := by omega
    have hpulse : k.pulsePhase + (n : ℝ) * 0.1 + 0.1
        = k.pulsePhase + ((n + 1 : ℕ) : ℝ) * 0.1 := by
      push_cast
      ring
    rw [Prod.mk.injEq]
    constructor
    · ext <;> simp [hsub, hpulse]
    · rfl

/-- C6: a kicker that is not already holding captures any ball within its
radius: the ball is stopped, centered on the kicker and held, the kicker
points are returned at the capture moment; the ball stays held through
the first holdDuration - 1 updates and on exactly the holdDuration-th
update it is released, still at the kicker center, with velocity
(cos ejectAngle, sin ejectAngle) * ejectForce; and while holding, the
kicker captures nothing and returns 0. -/
theorem kicker_capture_hold_eject (k : Kicker) (b : Ball)
    (h : k.hasBall = false)
    (hdist : magnitude (b.x - k.x) (b.y - k.y) < k.radius)
    (hdur : 1 ≤ k.holdDuration) :
    ((k.checkCollision b).2.1).vx = 0 ∧
    ((k.checkCollision b).2.1).vy = 0 ∧
    ((k.checkCollision b).2.1).x = k.x ∧
    ((k.checkCollision b).2.1).y = k.y ∧
    ((k.checkCollision b).2.1).isHeld = true ∧
    (k.checkCollision b).2.2 = k.points ∧
    ((k.checkCollision b).1).hasBall = true ∧
    (∀ n : ℕ, n < k.holdDuration →
      (Kicker.step^[n] ((k.checkCollision b).1, (k.checkCollision b).2.1)).2.isHeld
          = true ∧
      (Kicker.step^[n] ((k.checkCollision b).1, (k.checkCollision b).2.1)).1.hasBall
          = true) ∧
    ((Kicker.step^[k.holdDuration]
        ((k.checkCollision b).1, (k.checkCollision b).2.1)).2.vx
        = Real.cos k.ejectAngle * k.ejectForce ∧
      (Kicker.step^[k.holdDuration]
        ((k.checkCollision b).1, (k.checkCollision b).2.1)).2.vy
        = Real.sin k.ejectAngle * k.ejectForce ∧
      (Kicker.step^[k.holdDuration]
        ((k.checkCollision b).1, (k.checkCollision b).2.1)).2.isHeld = false ∧
      (Kicker.step^[k.holdDuration]
        ((k.checkCollision b).1, (k.checkCollision b).2.1)).1.hasBall = false ∧
      (Kicker.step^[k.holdDuration]
        ((k.checkCollision b).1, (k.checkCollision b).2.1)).2.x = k.x ∧
      (Kicker.step^[k.holdDuration]
        ((k.checkCollision b).1, (k.checkCollision b).2.1)).2.y = k.y) ∧
    (∀ (k2 : Kicker) (b2 : Ball), k2.hasBall = true →
      Kicker.checkCollision k2 b2 = (k2, b2, 0)) := by
  have hskip : ∀ (k2 : Kicker) (b2 : Ball), k2.hasBall = true →
      Kicker.checkCollision k2 b2 = (k2, b2, 0) := by
    intro k2 b2 h2
    unfold Kicker.checkCollision
    rw [if_pos h2]
  have hcc : k.checkCollision b
      = ({ k with hasBall := true, holdTimer := k.holdDuration },
         { b with vx := 0, vy := 0, x := k.x, y := k.y, isHeld := true },
         k.points) := by
    unfold Kicker.checkCollision
    rw [if_neg (by simp [h]), if_pos hdist]
  rw [hcc]
  set kc : Kicker := { k with hasBall := true, holdTimer := k.holdDuration }
    with hkc
  set bc : Ball := { b with vx := 0, vy := 0, x := k.x, y := k.y, isHeld := true } with hbc
  have hkcB : kc.hasBall = true := rfl
  have hkcT : kc.holdTimer = k.holdDuration := rfl
  have hheld : ∀ n : ℕ, n < k.holdDuration →
      (Kicker.step^[n] (kc, bc)).2.isHeld = true ∧
      (Kicker.step^[n] (kc, bc)).1.hasBall = true := by
    intro n hn
    rw [kicker_countdown bc kc hkcB n (by rw [hkcT]; exact hn)]
    exact ⟨rfl, rfl⟩
  have hlast : Kicker.step^[k.holdDuration - 1] (kc, bc)
      = ({ kc with
           holdTimer := kc.holdTimer - (k.holdDuration - 1),
           pulsePhase := kc.pulsePhase + ((k.holdDuration - 1 : ℕ) : ℝ) * 0.1 },
         bc) :=
    kicker_countdown bc kc hkcB (k.holdDuration - 1) (by omega)
  have hfin : Kicker.step^[k.holdDuration] (kc, bc)
      = (({ kc with
            holdTimer := 0,
            pulsePhase := kc.pulsePhase + ((k.holdDuration - 1 : ℕ) : ℝ) * 0.1 + 0.1,
            hasBall := false } : Kicker),
         ({ bc with
            vx := Real.cos k.ejectAngle * k.ejectForce,
            vy := Real.sin k.ejectAngle * k.ejectForce,
            isHeld := false } : Ball)) := by
    have hsplit : k.holdDuration = (k.holdDuration - 1) + 1 := by omega
    rw [hsplit, Function.iterate_succ_apply', hlast]
    show Kicker.update _ _ = _
    have htpos : 0 < kc.holdTimer - (k.holdDuration - 1) := by
      rw [hkcT]; omega
    have hzero : kc.holdTimer - (k.holdDuration - 1) - 1 = 0 := by
      rw [hkcT]; omega
    rw [kicker_update_eject ({ kc with holdTimer := kc.holdTimer - (k.holdDuration - 1), pulsePhase := kc.pulsePhase + ((k.holdDuration - 1 : ℕ) : ℝ) * 0.1 } : Kicker) bc rfl htpos hzero]
    rw [Prod.mk.injEq]
    constructor
    · ext <;> simp
      all_goals omega
    · rfl
  refine ⟨rfl, rfl, rfl, rfl, rfl, rfl, rfl, hheld, ?_, hskip⟩
  rw [hfin]
  exact ⟨rfl, rfl, rfl, rfl, rfl, rfl⟩

theorem magnitude_zero_zero : magnitude (0:ℝ) 0 = 0 := by
  unfold magnitude
  norm_num

/-- Witness for C6 at a concrete kicker and ball: the kicker at (100, 200)
with capture radius 5 and a ball resting exactly on its center; all three
hypotheses hold concretely. -/
theorem kicker_capture_hold_eject_witness :
    (mkKicker 100 200 5 (-(Real.pi / 2)) 15 500).hasBall = false ∧
    magnitude ((mkBall 100 200 8).x - (mkKicker 100 200 5 (-(Real.pi / 2)) 15 500).x)
        ((mkBall 100 200 8).y - (mkKicker 100 200 5 (-(Real.pi / 2)) 15 500).y)
      < (mkKicker 100 200 5 (-(Real.pi / 2)) 15 500).radius ∧
    1 ≤ (mkKicker 100 200 5 (-(Real.pi / 2)) 15 500).holdDuration ∧
    ((Kicker.step^[(mkKicker 100 200 5 (-(Real.pi / 2)) 15 500).holdDuration]
        (((mkKicker 100 200 5 (-(Real.pi / 2)) 15 500).checkCollision
            (mkBall 100 200 8)).1,
         ((mkKicker 100 200 5 (-(Real.pi / 2)) 15 500).checkCollision
            (mkBall 100 200 8)).2.1)).2.vx
      = Real.cos (mkKicker 100 200 5 (-(Real.pi / 2)) 15 500).ejectAngle
        * (mkKicker 100 200 5 (-(Real.pi / 2)) 15 500).ejectForce) := by
  have hdist : magnitude ((mkBall 100 200 8).x
        - (mkKicker 100 200 5 (-(Real.pi / 2)) 15 500).x)
      ((mkBall 100 200 8).y - (mkKicker 100 200 5 (-(Real.pi / 2)) 15 500).y)
      < (mkKicker 100 200 5 (-(Real.pi / 2)) 15 500).radius := by
    show magnitude ((100:ℝ) - 100) ((200:ℝ) - 200) < (5:ℝ)
    rw [show (100:ℝ) - 100 = 0 by norm_num, show (200:ℝ) - 200 = 0 by norm_num,
      magnitude_zero_zero]
    norm_num
  have hfalse : (mkKicker 100 200 5 (-(Real.pi / 2)) 15 500).hasBall = false := rfl
  have hdur : 1 ≤ (mkKicker 100 200 5 (-(Real.pi / 2)) 15 500).holdDuration := by
    show (1:ℕ) ≤ 60
    norm_num
  exact ⟨hfalse, hdist, hdur,
    (kicker_capture_hold_eject (mkKicker 100 200 5 (-(Real.pi / 2)) 15 500)
      (mkBall 100 200 8) hfalse hdist hdur).2.2.2.2.2.2.2.2.1.1⟩

/-- State of the Plunger class from elements.js.  All plunger arithmetic
is rational (0.02 = 1/50, 0.4 = 2/5), so it is embedded over the rational
numbers. -/
structure Plunger where
  x : ℚ
  y : ℚ
  width : ℚ
  height : ℚ
  power : ℚ
  maxPower : ℚ
  isCharging : Bool
  chargeSpeed : ℚ
  minLaunchVelocity : ℚ
  maxLaunchVelocity : ℚ
  compressionOffset : ℚ
  maxCompression : ℚ

/-- Constructor of the Plunger class. -/
def mkPlunger (x y width height : ℚ) : Plunger :=
  { x := x, y := y, width := width, height := height,
    power := 0, maxPower := 1, isCharging := false, chargeSpeed := 1/50,
    minLaunchVelocity := 10, maxLaunchVelocity := 30,
    compressionOffset := 0, maxCompression := height * (2/5) }

/-- Method Plunger.startCharge() from elements.js. -/
def Plunger.startCharge (p : Plunger) : Plunger :=
  { p with isCharging := true, power := 0 }

/-- Result of Plunger.release(): the source returns the plain number 0
when not charging and a velocity-and-power record while charging, so the
result type is a sum of the two shapes. -/
inductive ReleaseResult where
  | plain (value : ℚ) : ReleaseResult
  | launch (velocity power : ℚ) : ReleaseResult

/-- Method Plunger.release() from elements.js: the plain number 0 when not
charging; otherwise the record with the computed upward (negative) launch
velocity and the raw charge, with the charge reset and charging cleared. -/
def Plunger.release (p : Plunger) : Plunger × ReleaseResult :=
  if p.isCharging = false then (p, ReleaseResult.plain 0)
  else
    let velocity := p.minLaunchVelocity +
      (p.maxLaunchVelocity - p.minLaunchVelocity) * p.power
    let launchPower := p.power
    ({ p with isCharging := false, power := 0 },
     ReleaseResult.launch (-velocity) launchPower)

/-- Method Plunger.update() from elements.js: while charging the power
grows by chargeSpeed up to maxPower; the visual compression offset always
tracks the current power. -/
def Plunger.update (p : Plunger) : Plunger :=
  let pw := if p.isCharging then min p.maxPower (p.power + p.chargeSpeed)
    else p.power
  { p with power := pw, compressionOffset := pw * p.maxCompression }

/-- Dispatch of launchBall in game.js on the shape of the release result:
the velocity field of the record, or the plain number itself. -/
def launchVelocityOf : ReleaseResult → ℚ
  | ReleaseResult.launch v _ => v
  | ReleaseResult.plain n => n

theorem plunger_update_fields (p : Plunger) :
    (p.update).power = (if p.isCharging = true
        then min p.maxPower (p.power + p.chargeSpeed) else p.power) ∧
    (p.update).isCharging = p.isCharging ∧
    (p.update).maxPower = p.maxPower ∧
    (p.update).chargeSpeed = p.chargeSpeed ∧
    (p.update).minLaunchVelocity = p.minLaunchVelocity ∧
    (p.update).maxLaunchVelocity = p.maxLaunchVelocity := by
  unfold Plunger.update
  exact ⟨rfl, rfl, rfl, rfl, rfl, rfl⟩

theorem plunger_charge_iter (x y w h : ℚ) (n : ℕ) :
    (Plunger.update^[n] ((mkPlunger x y w h).startCharge)).power
        = min 1 ((n : ℚ) * (1/50)) ∧
    (Plunger.update^[n] ((mkPlunger x y w h).startCharge)).isCharging = true ∧
    (Plunger.update^[n] ((mkPlunger x y w h).startCharge)).maxPower = 1 ∧
    (Plunger.update^[n] ((mkPlunger x y w h).startCharge)).chargeSpeed = 1/50 ∧
    (Plunger.update^[n] ((mkPlunger x y w h).startCharge)).minLaunchVelocity = 10 ∧
    (Plunger.update^[n] ((mkPlunger x y w h).startCharge)).maxLaunchVelocity = 30 := by
  induction n with
  | zero =>
    refine ⟨?_, rfl, rfl, rfl, rfl, rfl⟩
    show (0:ℚ) = min 1 (((0:ℕ) : ℚ) * (1/50))
    norm_num
  | succ n ih =>
    obtain ⟨hp, hc, hm, hs, hmin, hmax⟩ := ih
    rw [Function.iterate_succ_apply']
    obtain ⟨fp, fc, fm, fs, fmin, fmax⟩ :=
      plunger_update_fields (Plunger.update^[n] ((mkPlunger x y w h).startCharge))
    refine ⟨?_, by rw [fc, hc], by rw [fm, hm], by rw [fs, hs],
      by rw [fmin, hmin], by rw [fmax, hmax]⟩
    rw [fp, if_pos hc, hp, hm, hs]
    rcases le_total ((n : ℚ) * (1/50)) 1 with hle | hge
    · rw [min_eq_right hle]
      have harith : (n : ℚ) * (1/50) + 1/50 = ((n + 1 : ℕ) : ℚ) * (1/50) := by
        push_cast
        ring
      rw [harith]
    · rw [min_eq_left hge]
      have h1 : min (1:ℚ) (1 + 1/50) = 1 := min_eq_left (by norm_num)
      have h2 : min (1:ℚ) (((n + 1 : ℕ) : ℚ) * (1/50)) = 1 := by
        apply min_eq_left
        push_cast
        linarith
      rw [h1, h2]

/-- C8: charging a freshly constructed plunger and updating n times yields
charge min(1, n * chargeSpeed); release while charging returns the record
with velocity -(10 + (30 - 10) * charge) and the raw charge, after which
the charge is 0 and charging is cleared; in particular 25 ticks yield
charge 1/2 and release velocity -20. -/
theorem plunger_charge_and_release (x y w h : ℚ) (n : ℕ) :
    (Plunger.update^[n] ((mkPlunger x y w h).startCharge)).power
        = min 1 ((n : ℚ) * (1/50)) ∧
    (Plunger.update^[n] ((mkPlunger x y w h).startCharge)).isCharging = true ∧
    ((Plunger.update^[n] ((mkPlunger x y w h).startCharge)).release).2
        = ReleaseResult.launch (-(10 + (30 - 10) * min 1 ((n : ℚ) * (1/50))))
            (min 1 ((n : ℚ) * (1/50))) ∧
    ((Plunger.update^[n] ((mkPlunger x y w h).startCharge)).release).1.power
        = 0 ∧
    ((Plunger.update^[n] ((mkPlunger x y w h).startCharge)).release).1.isCharging
        = false ∧
    (n = 25 →
      ((Plunger.update^[n] ((mkPlunger x y w h).startCharge)).release).2
        = ReleaseResult.launch (-20) (1/2)) := by
  obtain ⟨hp, hc, hm, hs, hmin, hmax⟩ := plunger_charge_iter x y w h n
  have hnotfalse : ¬ ((Plunger.update^[n]
      ((mkPlunger x y w h).startCharge)).isCharging = false) := by
    rw [hc]
    simp
  have hrel : ((Plunger.update^[n] ((mkPlunger x y w h).startCharge)).release)
      = ({ (Plunger.update^[n] ((mkPlunger x y w h).startCharge)) with
           isCharging := false, power := 0 },
         ReleaseResult.launch (-(10 + (30 - 10) * min 1 ((n : ℚ) * (1/50))))
           (min 1 ((n : ℚ) * (1/50)))) := by
    unfold Plunger.release
    rw [if_neg hnotfalse, hmin, hmax, hp]
    simp [hmin, hmax]
  refine ⟨hp, hc, ?_, ?_, ?_, ?_⟩
  · rw [hrel]
  · rw [hrel]
  · rw [hrel]
  · intro h25
    rw [hrel, h25]
    norm_num

/-- Witness for C8 at the concrete 25-tick scenario of the spec. -/
theorem plunger_charge_and_release_witness :
    (25:ℕ) = 25 ∧
    ((Plunger.update^[25] ((mkPlunger 0 0 20 80).startCharge)).release).2
      = ReleaseResult.launch (-20) (1/2) :=
  ⟨rfl, (plunger_charge_and_release 0 0 20 80 25).2.2.2.2.2 rfl⟩

/-- C10: release() while not charging returns the plain number 0 and
leaves the plunger untouched, while release() during charging returns the
velocity-and-power record, so callers face two result shapes; the
launchBall dispatch maps the plain shape to velocity 0. -/
theorem plunger_release_two_shapes (p : Plunger) :
    (p.isCharging = false →
      p.release = (p, ReleaseResult.plain 0) ∧
      launchVelocityOf (p.release).2 = 0) ∧
    (p.isCharging = true →
      (p.release).2 = ReleaseResult.launch
        (-(p.minLaunchVelocity +
          (p.maxLaunchVelocity - p.minLaunchVelocity) * p.power)) p.power) := by
  constructor
  · intro hc
    have hr : p.release = (p, ReleaseResult.plain 0) := by
      unfold Plunger.release
      rw [if_pos hc]
    exact ⟨hr, by rw [hr]; rfl⟩
  · intro hc
    unfold Plunger.release
    rw [if_neg (by rw [hc]; simp)]

/-- Witness for C10 at concrete plungers: a freshly constructed plunger is
not charging and releases the plain 0; after startCharge it is charging
and releases the record shape. -/
theorem plunger_release_two_shapes_witness :
    (mkPlunger 0 0 20 80).isCharging = false ∧
    (mkPlunger 0 0 20 80).release = (mkPlunger 0 0 20 80, ReleaseResult.plain 0) ∧
    launchVelocityOf ((mkPlunger 0 0 20 80).release).2 = 0 ∧
    ((mkPlunger 0 0 20 80).startCharge).isCharging = true ∧
    (((mkPlunger 0 0 20 80).startCharge).release).2
      = ReleaseResult.launch (-(10 + (30 - 10) * 0)) 0 := by
  have h1 := (plunger_release_two_shapes (mkPlunger 0 0 20 80)).1 rfl
  have h2 := (plunger_release_two_shapes
    ((mkPlunger 0 0 20 80).startCharge)).2 rfl
  exact ⟨rfl, h1.1, h1.2, rfl, h2⟩

end Pinball
